import Mathlib

/-!
Verification development for the `ssh-ssl-auto-renew` certificate renewal and
deployment tool.  The definitions below are a shallow embedding of the Python
sources under `cert_automation/`:

* `remote_deployer.py`  — `execute_command`, `upload_file`,
  `validate_nginx_config`, `reload_nginx` (the `RemoteDeployer` methods),
* `health_checker.py`   — `check_https_status`, `verify_cert_expiry`,
* `cert_manager.py`     — `is_certificate_due_for_renewal`,
* `main.py`             — `get_wildcard_domain`, `deploy_certificate`,
  `process_domain`,
* `report_generator.py` — `overall_status` (the status computation at the top
  of `generate_markdown_report`).

The remote host, the DNS resolver, the local file system, the health-check
network and the ACME issuance backend are external collaborators; their
observable behaviour is supplied through a `Scenario` (one per server) and an
`Env` record, and every remote interaction is recorded in an event trace so
that frame conditions ("zero network calls") can be stated.  The `@retry`
decorator re-invokes the same call on transport-classified exceptions; since a
`Scenario` is deterministic, a retried attempt returns the identical result,
so each decorated call is modelled as a single attempt (retries never fire on
the success paths whose exact traces are stated below).
-/

namespace CertAuto

/-- Observable events of a run: DNS resolution (`socket.gethostbyname` in
`get_domain_ip_type`), issuance-backend invocation (`issue_certificate`),
network-performing transport operations of `RemoteDeployer` (command
execution, SFTP upload), and the two health-check network probes. -/
inductive Event where
  | dnsResolve (domain : String)
  | issueCert (domain : String)
  | execCmd (host : String) (cmd : String)
  | sftpPut (host : String) (localPath : String) (remotePath : String)
  | httpsCheck (domain : String)
  | liveCertCheck (domain : String)
  deriving Repr, DecidableEq

/-- Remote file system of one server: an association list from absolute path
to file content. -/
abbrev RemoteFs : Type := List (String × String)

/-- Look up a remote file's content. -/
def fsGet (fs : RemoteFs) (p : String) : Option String :=
  match fs with
  | [] => none
  | e :: rest => if e.1 == p then some e.2 else fsGet rest p

/-- Write (create or overwrite) a remote file. -/
def fsSet (fs : RemoteFs) (p v : String) : RemoteFs :=
  match fs with
  | [] => [(p, v)]
  | e :: rest => if e.1 == p then (p, v) :: rest else e :: fsSet rest p v

/-- Remove a remote file if present. -/
def fsRemove (fs : RemoteFs) (p : String) : RemoteFs :=
  match fs with
  | [] => []
  | e :: rest => if e.1 == p then fsRemove rest p else e :: fsRemove rest p

/-- Whether the first character list is a prefix of the second (structurally
recursive so that the kernel can evaluate it). -/
def charsPrefix : List Char → List Char → Bool
  | [], _ => true
  | _ :: _, [] => false
  | a :: as, b :: bs => a == b && charsPrefix as bs

/-- Whether `needle` occurs as a contiguous sublist of `hay`. -/
def charsContains (hay needle : List Char) : Bool :=
  charsPrefix needle hay ||
    (match hay with
     | [] => false
     | _ :: rest => charsContains rest needle)

/-- Python's substring test `needle in hay` (used by `execute_command`'s
dry-run branch and by `validate_nginx_config`). -/
def strContains (hay needle : String) : Bool :=
  charsContains hay.data needle.data

/-- Split a character list at every occurrence of `sep` (empty pieces kept,
like Python's `str.split(sep)` with a one-character separator). -/
def charsSplit (sep : Char) : List Char → List (List Char)
  | [] => [[]]
  | c :: rest =>
    if c == sep then [] :: charsSplit sep rest
    else
      match charsSplit sep rest with
      | [] => [[c]]
      | t :: ts => (c :: t) :: ts

/-- Python's `s.split(sep)` for a one-character separator. -/
def strSplitChar (s : String) (sep : Char) : List String :=
  (charsSplit sep s.data).map (fun cs => String.mk cs)

/-- Python's `s.startswith(pre)`. -/
def strStartsWith (s pre : String) : Bool :=
  charsPrefix pre.data s.data

/-- Python's `s.endswith(suf)`. -/
def strEndsWith (s suf : String) : Bool :=
  charsPrefix suf.data.reverse s.data.reverse

/-- Python's `sep.join(parts)`. -/
def joinSep (sep : String) : List String → String
  | [] => ""
  | [x] => x
  | x :: y :: xs => x ++ sep ++ joinSep sep (y :: xs)

/-- Python's `os.path.join` restricted to the shapes used by the sources. -/
def pathJoin (a b : String) : String :=
  if strStartsWith b "/" then b
  else if a == "" then b
  else if strEndsWith a "/" then a ++ b
  else a ++ "/" ++ b

/-- Result of executing one remote shell command on the host: exit 0 with
stdout, nonzero exit, or a transport-level (SSH/socket) exception. -/
inductive ExecResult where
  | ok (fs : RemoteFs) (stdout : String)
  | exitErr (fs : RemoteFs) (code : Nat) (stdout : String) (stderr : String)
  | netErr (msg : String)

/-- Behaviour of one server's remote side, fixed for a deployment: its initial
file system, which SFTP uploads raise (`paramiko`/`IOError`), which commands
raise transport errors, the stdout/exit of `sudo nginx -t`, the stdout/exit of
any other non-file command (e.g. the configured reload command), and the
boolean results of the two health checks of `health_checker.py` (whose methods
catch every exception internally and return a `bool`). -/
structure Scenario where
  fs : RemoteFs
  uploadFails : String → Option String
  netErrOn : String → Option String
  nginxTest : String × Nat
  otherCmd : String → String × Nat
  httpsOk : Bool
  liveCertOk : Bool

/-- What the remote host does with one command string: `cp`/`mv`/`rm` act on
the file system (exit 1 when a source is missing, like the real tools),
`sudo nginx -t` answers with the scenario's configured self-test result, and
anything else (the configured reload command) with `otherCmd`. -/
def interpretCmd (sc : Scenario) (fs : RemoteFs) (cmd : String) : ExecResult :=
  match sc.netErrOn cmd with
  | some e => ExecResult.netErr e
  | none =>
    match strSplitChar cmd ' ' with
    | ["sudo", "cp", src, dst] =>
      match fsGet fs src with
      | some v => ExecResult.ok (fsSet fs dst v) ""
      | none => ExecResult.exitErr fs 1 "" ("cp: cannot stat " ++ src)
    | ["sudo", "mv", src, dst] =>
      match fsGet fs src with
      | some v => ExecResult.ok (fsSet (fsRemove fs src) dst v) ""
      | none => ExecResult.exitErr fs 1 "" ("mv: cannot stat " ++ src)
    | ["sudo", "rm", a, b] =>
      if (fsGet fs a).isSome && (fsGet fs b).isSome then
        ExecResult.ok (fsRemove (fsRemove fs a) b) ""
      else
        ExecResult.exitErr (fsRemove (fsRemove fs a) b) 1 "" "rm: cannot remove"
    | ["sudo", "nginx", "-t"] =>
      if sc.nginxTest.2 == 0 then ExecResult.ok fs sc.nginxTest.1
      else ExecResult.exitErr fs sc.nginxTest.2 sc.nginxTest.1 ""
    | _ =>
      let r := sc.otherCmd cmd
      if r.2 == 0 then ExecResult.ok fs r.1
      else ExecResult.exitErr fs r.2 r.1 ""

/-- State threaded through one server's deployment: the remote file system and
the trace of events so far. -/
structure DState where
  fs : RemoteFs
  trace : List Event

/-- The simulated `nginx -t` stdout returned by `execute_command` in dry-run
mode (`remote_deployer.py` line 98). -/
def dryNginxOut : String :=
  "nginx: the configuration file /etc/nginx/nginx.conf syntax is ok\nnginx: test is successful"

/-- RemoteDeployer.execute_command (`remote_deployer.py` lines 91-121).  In
dry-run it short-circuits to a simulated success string before connecting; a
nonzero exit code raises (as `Except.error`) when `checkExit` is set, else the
stdout is returned. -/
def execute_command (dryRun : Bool) (sc : Scenario) (host : String) (st : DState)
    (cmd : String) (checkExit : Bool) : Except String String × DState :=
  if dryRun then
    if strContains cmd "nginx -t" then (Except.ok dryNginxOut, st)
    else (Except.ok "Success (dry run)", st)
  else
    let tr := st.trace ++ [Event.execCmd host cmd]
    match interpretCmd sc st.fs cmd with
    | ExecResult.netErr e => (Except.error e, { fs := st.fs, trace := tr })
    | ExecResult.ok fs2 out => (Except.ok out, { fs := fs2, trace := tr })
    | ExecResult.exitErr fs2 code out err =>
      if checkExit then
        (Except.error ("Command \x27" ++ cmd ++ "\x27 failed with exit code "
            ++ toString code ++ ". Stderr: " ++ err ++ ". Stdout: " ++ out),
         { fs := fs2, trace := tr })
      else (Except.ok out, { fs := fs2, trace := tr })

/-- RemoteDeployer.upload_file (`remote_deployer.py` lines 68-89).  In dry-run
it returns before connecting; otherwise the SFTP put either raises or writes
the local file's content to the remote path. -/
def upload_file (dryRun : Bool) (sc : Scenario) (localFs : String → String)
    (host : String) (st : DState) (localPath remotePath : String) :
    Except String Unit × DState :=
  if dryRun then (Except.ok (), st)
  else
    let tr := st.trace ++ [Event.sftpPut host localPath remotePath]
    match sc.uploadFails remotePath with
    | some e => (Except.error e, { fs := st.fs, trace := tr })
    | none => (Except.ok (), { fs := fsSet st.fs remotePath (localFs localPath), trace := tr })

/-- RemoteDeployer.validate_nginx_config (`remote_deployer.py` lines 123-136).
Runs `sudo nginx -t`; every exception is caught and turned into `false`; the
textual marker "test is successful" decides the result.  It never raises. -/
def validate_nginx_config (dryRun : Bool) (sc : Scenario) (host : String)
    (st : DState) : Bool × DState :=
  match execute_command dryRun sc host st "sudo nginx -t" true with
  | (Except.ok out, st2) => (strContains out "test is successful", st2)
  | (Except.error _, st2) => (false, st2)

/-- RemoteDeployer.reload_nginx (`remote_deployer.py` lines 138-147).  Runs
the configured reload command; every exception is caught and turned into
`false`.  It never raises. -/
def reload_nginx (dryRun : Bool) (sc : Scenario) (host : String) (st : DState)
    (reloadCommand : String) : Bool × DState :=
  match execute_command dryRun sc host st reloadCommand true with
  | (Except.ok _, st2) => (true, st2)
  | (Except.error _, st2) => (false, st2)

/-- HealthChecker.check_https_status (`health_checker.py` lines 19-44): an
HTTPS probe of the domain; all exceptions are caught, the boolean outcome is
external and supplied by the scenario. -/
def check_https_status (sc : Scenario) (domain : String) (st : DState) :
    Bool × DState :=
  (sc.httpsOk, { fs := st.fs, trace := st.trace ++ [Event.httpsCheck domain] })

/-- HealthChecker.verify_cert_expiry (`health_checker.py` lines 46-85): fetch
the live certificate and check its remaining validity; all exceptions are
caught, the boolean outcome is external and supplied by the scenario. -/
def verify_cert_expiry (sc : Scenario) (domain : String) (st : DState) :
    Bool × DState :=
  (sc.liveCertOk, { fs := st.fs, trace := st.trace ++ [Event.liveCertCheck domain] })

/-- One server's entry of `servers.yaml` as consumed by `deploy_certificate`
via `server_config.get(...)`: a missing key yields `none`.  Python's `all`
also rejects empty strings, captured by `truthy`. -/
structure ServerConfig where
  name : Option String
  host : Option String
  user : Option String
  ssh_key_path : Option String
  cert_path : Option String
  nginx_reload_command : Option String

/-- Python truthiness of a `.get(...)` result: present and non-empty. -/
def truthy : Option String → Bool
  | none => false
  | some s => s != ""

/-- Rendering of a possibly-missing value inside an f-string (`None` when
absent). -/
def optStr : Option String → String
  | none => "None"
  | some s => s

/-- deploy_certificate (`main.py` lines 55-129).  Faithful step sequence:
incomplete-config early return; best-effort backup `cp` of the live fullchain
(errors swallowed, lines 85-88); two uploads that raise on failure (91-92);
`validate_nginx_config` and `reload_nginx` invoked with their boolean results
discarded (95, 98 — the comments there say "Now raises exception on failure"
but `remote_deployer.py` catches everything and returns a bool); the two
health checks, results likewise discarded, only when not in dry-run (102-104);
best-effort backup cleanup `rm` (108-111); on an escaped exception the handler
(115-127) attempts the two `mv` rollbacks and a reload when not in dry-run,
logs a rollback failure without changing the returned message, and returns
`(false, "Deployment to {server} FAILED: {e}")`. -/
def deploy_certificate (cfg : ServerConfig) (domainName localCertPath localKeyPath : String)
    (dryRun : Bool) (sc : Scenario) (localFs : String → String) :
    (Bool × String) × DState :=
  let serverNameOpt : Option String := match cfg.name with | some n => some n | none => cfg.host
  let serverName := optStr serverNameOpt
  if !(truthy cfg.host && truthy cfg.user && truthy cfg.ssh_key_path &&
       truthy cfg.cert_path && truthy cfg.nginx_reload_command) then
    ((false, "Server config for \x27" ++ serverName ++ "\x27 is incomplete. Skipping deployment."),
     { fs := sc.fs, trace := [] })
  else
    let host := optStr cfg.host
    let reloadCommand := optStr cfg.nginx_reload_command
    let remote_fullchain_path := pathJoin (optStr cfg.cert_path) "fullchain.pem"
    let remote_key_path := pathJoin (optStr cfg.cert_path) "privkey.pem"
    let backup_fullchain_path := remote_fullchain_path ++ ".bak"
    let backup_key_path := remote_key_path ++ ".bak"
    let st0 : DState := { fs := sc.fs, trace := [] }
    let st1 := (execute_command dryRun sc host st0
        ("sudo cp " ++ remote_fullchain_path ++ " " ++ backup_fullchain_path) false).2
    let body : Except String Unit × DState :=
      match upload_file dryRun sc localFs host st1 localCertPath remote_fullchain_path with
      | (Except.error e, st) => (Except.error e, st)
      | (Except.ok _, st) =>
        match upload_file dryRun sc localFs host st localKeyPath remote_key_path with
        | (Except.error e, st) => (Except.error e, st)
        | (Except.ok _, st) =>
          let st := (validate_nginx_config dryRun sc host st).2
          let st := (reload_nginx dryRun sc host st reloadCommand).2
          let st :=
            if !dryRun then
              let st := (check_https_status sc domainName st).2
              (verify_cert_expiry sc domainName st).2
            else st
          let st := (execute_command dryRun sc host st
              ("sudo rm " ++ backup_fullchain_path ++ " " ++ backup_key_path) true).2
          (Except.ok (), st)
    match body with
    | (Except.ok _, st) =>
      ((true, "Deployment to " ++ serverName ++ " successful."), st)
    | (Except.error e, st) =>
      let errorMsg := "Deployment to " ++ serverName ++ " FAILED: " ++ e
      if !dryRun then
        let st2 :=
          match execute_command false sc host st
              ("sudo mv " ++ backup_fullchain_path ++ " " ++ remote_fullchain_path) true with
          | (Except.error _, stx) => stx
          | (Except.ok _, stx) =>
            match execute_command false sc host stx
                ("sudo mv " ++ backup_key_path ++ " " ++ remote_key_path) true with
            | (Except.error _, sty) => sty
            | (Except.ok _, sty) => (reload_nginx false sc host sty reloadCommand).2
        ((false, errorMsg), st2)
      else ((false, errorMsg), st)

/-- One per-server deployment outcome as appended by `process_domain`
(`main.py` lines 202-214). -/
structure DeploymentOutcome where
  server : String
  success : Bool
  message : String
  deriving Repr, DecidableEq

/-- The per-domain result record built by `process_domain` (`main.py` lines
164-168). -/
structure DomainResult where
  domain : String
  issue_error : Option String
  deployment_results : List DeploymentOutcome
  deriving Repr, DecidableEq

/-- An entry of `results["failed_renewals"]`: either the structural record for
a domain entry missing its `domain` field (`main.py` line 142) or a full
`DomainResult`. -/
inductive FailedEntry where
  | missingDomain (domain : String) (error : String)
  | domainFailure (r : DomainResult)
  deriving Repr, DecidableEq

/-- The mutable `results` dictionary of `main.py` restricted to the fields
`process_domain` reads and writes (the `global_config` entries it consults are
inlined as `global_dry_run`, `renewal_threshold_days`, `cert_base_path`). -/
structure Results where
  global_dry_run : Bool
  renewal_threshold_days : Int
  cert_base_path : String
  total_domains_configured : Nat
  domains_processed : Nat
  successful_renewals : List String
  skipped_renewals : List String
  failed_renewals : List FailedEntry
  deriving Repr, DecidableEq

/-- One entry of `domains.yaml` (`domain_info` in `main.py`). -/
structure DomainInfo where
  domain : Option String
  servers : List String

/-- External collaborators of `process_domain`: the DNS classification
returned by `get_domain_ip_type` ("private" / "public" / "unknown"), the local
certificate inspection `get_certificate_expiry_date` (`none` when the file is
missing or unreadable, `cert_manager.py` lines 35-43), the current time, the
issuance backend `issue_certificate` (raises on failure), the remote-side
scenario of each named server, and the local file contents used by uploads. -/
structure Env where
  ipType : String → String
  certExpiry : String → Option Int
  now : Int
  issue : String → Except String Unit
  scenarioFor : String → Scenario
  localFs : String → String

/-- is_certificate_due_for_renewal (`cert_manager.py` lines 45-69) over the
abstracted expiry timestamp: an undeterminable expiry date yields `false`
("Assuming not due for renewal", line 58); otherwise due iff `now` has reached
expiry minus the threshold. -/
def is_certificate_due_for_renewal (expiry : Option Int) (now : Int)
    (renewal_threshold_days : Int) : Bool :=
  match expiry with
  | none => false
  | some e => decide (now ≥ e - renewal_threshold_days)

/-- get_wildcard_domain (`main.py` lines 44-53). -/
def get_wildcard_domain (domain : String) : String :=
  let parts := strSplitChar domain '.'
  let wildcard_base := if parts.length > 2 then joinSep "." (parts.drop 1) else domain
  "*." ++ wildcard_base

/-- The deployment fan-out loop of `process_domain` (`main.py` lines 196-214):
one outcome per listed server, in list order; a name that the inventory does
not resolve contributes a synthetic failed outcome and the loop continues. -/
def deployAll (env : Env) (servers : List String)
    (serversMap : String → Option ServerConfig) (target lc lk : String)
    (dryRun : Bool) : List DeploymentOutcome × List Event :=
  match servers with
  | [] => ([], [])
  | name :: rest =>
    let (outcome, tr) :=
      match serversMap name with
      | some cfg =>
        let r := deploy_certificate cfg target lc lk dryRun (env.scenarioFor name) env.localFs
        ({ server := name, success := r.1.1, message := r.1.2 }, r.2.trace)
      | none =>
        ({ server := name, success := false,
           message := "Server \x27" ++ name ++ "\x27 not found in servers.yaml. Cannot deploy." },
         [])
    let r := deployAll env rest serversMap target lc lk dryRun
    (outcome :: r.1, tr ++ r.2)

/-- process_domain (`main.py` lines 131-228).  Returns the updated results
dictionary and the trace of external events the processing produced.  Note the
DNS resolution of `get_domain_ip_type` (line 152) happens before the
renewal-due check (line 158). -/
def process_domain (env : Env) (domain_info : DomainInfo)
    (serversMap : String → Option ServerConfig) (results : Results) :
    Results × List Event :=
  match domain_info.domain with
  | none =>
    ({ results with
        domains_processed := results.domains_processed + 1,
        failed_renewals := results.failed_renewals ++
          [FailedEntry.missingDomain "N/A" "Domain entry missing \x27domain\x27 field."] },
     [])
  | some target_domain =>
    let dry_run := results.global_dry_run
    let results := { results with domains_processed := results.domains_processed + 1 }
    let local_cert_dir := pathJoin results.cert_base_path target_domain
    let local_cert_path := pathJoin local_cert_dir "fullchain.cer"
    let local_key_path := pathJoin local_cert_dir "domain.key"
    let ip_type := env.ipType target_domain
    let trace0 : List Event := [Event.dnsResolve target_domain]
    let domain_to_issue := if ip_type == "private" then get_wildcard_domain target_domain
                           else target_domain
    if is_certificate_due_for_renewal (env.certExpiry local_cert_path) env.now
        results.renewal_threshold_days || dry_run then
      let trace1 := trace0 ++ [Event.issueCert domain_to_issue]
      match env.issue domain_to_issue with
      | Except.error e =>
        let dr : DomainResult :=
          { domain := target_domain, issue_error := some e, deployment_results := [] }
        ({ results with failed_renewals := results.failed_renewals ++ [FailedEntry.domainFailure dr] },
         trace1)
      | Except.ok _ =>
        let (outcomes, trace2) :=
          if domain_info.servers.isEmpty then
            ([{ server := "N/A", success := true,
                message := "No deployment targets configured." }], [])
          else
            deployAll env domain_info.servers serversMap target_domain
              local_cert_path local_key_path dry_run
        let dr : DomainResult :=
          { domain := target_domain, issue_error := none, deployment_results := outcomes }
        let all_deployments_successful := outcomes.all (fun o => o.success)
        if dr.issue_error == none && all_deployments_successful then
          ({ results with successful_renewals := results.successful_renewals ++ [target_domain] },
           trace1 ++ trace2)
        else
          ({ results with failed_renewals := results.failed_renewals ++ [FailedEntry.domainFailure dr] },
           trace1 ++ trace2)
    else
      ({ results with skipped_renewals := results.skipped_renewals ++ [target_domain] },
       trace0)

/-- The overall-status computation at the head of `generate_markdown_report`
(`report_generator.py` lines 39-47): a non-empty failed list yields FAILURE
when its length equals the configured total and PARTIAL_SUCCESS otherwise;
with no failures, zero configured and zero processed yield
NO_DOMAINS_CONFIGURED, anything else SUCCESS. -/
def overall_status (failed_renewals : List FailedEntry)
    (total_domains_configured domains_processed : Nat) : String :=
  if !failed_renewals.isEmpty then
    if failed_renewals.length == total_domains_configured then "FAILURE"
    else "PARTIAL_SUCCESS"
  else if total_domains_configured == 0 && domains_processed == 0 then
    "NO_DOMAINS_CONFIGURED"
  else "SUCCESS"

/-! Concrete instances used by the theorems below: one complete server
configuration, a remote host that already serves an old certificate pair, a
local certificate artifact pair, and scenarios for the individual failure
modes. -/

/-- A complete `servers.yaml` entry. -/
def cfg1 : ServerConfig :=
  { name := some "web-01", host := some "203.0.113.10", user := some "deploy",
    ssh_key_path := some "/root/keys/id_ed25519", cert_path := some "/etc/nginx/certs",
    nginx_reload_command := some "sudo systemctl reload nginx" }

/-- Remote state before deployment: the currently live certificate pair. -/
def baseFs : RemoteFs :=
  [("/etc/nginx/certs/fullchain.pem", "OLDCHAIN"), ("/etc/nginx/certs/privkey.pem", "OLDKEY")]

/-- Local certificate artifacts: any `fullchain.cer` holds the newly issued
chain, any `domain.key` the new private key. -/
def localFs1 : String → String := fun p =>
  if strEndsWith p "fullchain.cer" then "NEWCHAIN"
  else if strEndsWith p "domain.key" then "NEWKEY"
  else ""

/-- Local path of the issued chain for domain `example.com`. -/
def lcPath : String := "/tmp/certs/example.com/fullchain.cer"

/-- Local path of the issued key for domain `example.com`. -/
def lkPath : String := "/tmp/certs/example.com/domain.key"

/-- A remote side on which every deployment step succeeds. -/
def okScenario : Scenario :=
  { fs := baseFs, uploadFails := fun _ => none, netErrOn := fun _ => none,
    nginxTest := ("nginx: the configuration file /etc/nginx/nginx.conf syntax is ok\nnginx: test is successful", 0),
    otherCmd := fun _ => ("", 0), httpsOk := true, liveCertOk := true }

/-- Both uploads succeed but the remote `nginx -t` self-test fails (exit 1,
no success marker). -/
def c1Scenario : Scenario :=
  { okScenario with nginxTest := ("nginx: [emerg] cannot load certificate", 1) }

/-- The reload command exits nonzero; everything else succeeds. -/
def c2ReloadFailScenario : Scenario :=
  { okScenario with
    otherCmd := fun c => if c == "sudo systemctl reload nginx" then ("reload failed", 1) else ("", 0) }

/-- The post-deployment HTTPS status check fails; everything else succeeds. -/
def c2HttpsFailScenario : Scenario := { okScenario with httpsOk := false }

/-- The live-certificate minimum-validity check fails; everything else
succeeds. -/
def c2CertFailScenario : Scenario := { okScenario with liveCertOk := false }

/-- The key upload raises, and the first rollback `mv` then hits a transport
error, so the rollback itself fails. -/
def c4Scenario : Scenario :=
  { okScenario with
    uploadFails := fun p =>
      if p == "/etc/nginx/certs/privkey.pem" then some "Failure during SFTP write of privkey.pem"
      else none,
    netErrOn := fun c =>
      if c == "sudo mv /etc/nginx/certs/fullchain.pem.bak /etc/nginx/certs/fullchain.pem" then
        some "SSH connection lost during rollback"
      else none }

/-- An empty run-results record for one configured domain, live mode,
30-day threshold. -/
def res0 : Results :=
  { global_dry_run := false, renewal_threshold_days := 30, cert_base_path := "/tmp/certs",
    total_domains_configured := 1, domains_processed := 0,
    successful_renewals := [], skipped_renewals := [], failed_renewals := [] }

/-- Inventory mapping the single name `web-01` to `cfg1`. -/
def mapOne : String → Option ServerConfig :=
  fun n => if n == "web-01" then some cfg1 else none

/-- External world in which the local certificate of every domain expires at
time 1000 and now is 980 (within the 30-day threshold, so renewal is due),
DNS resolves publicly, issuance succeeds, and every server behaves like
`okScenario`. -/
def envBase : Env :=
  { ipType := fun _ => "public", certExpiry := fun _ => some 1000, now := 980,
    issue := fun _ => Except.ok (), scenarioFor := fun _ => okScenario, localFs := localFs1 }

/-- Same world but now is 900: not yet within the renewal threshold. -/
def envNotDue : Env := { envBase with now := 900 }

/-- Same world but issuance fails. -/
def envIssueFail : Env :=
  { envBase with
    issue := fun _ => Except.error "acme.sh certificate issuance failed: DNS-01 challenge failed" }

/-- Same world but the local certificate file is missing or unreadable for
every domain. -/
def envNoCert : Env := { envBase with certExpiry := fun _ => none }

/-- Fan-out world: the upload to server `B` is refused, servers `A` and `C`
behave like `okScenario`. -/
def envC5 : Env :=
  { envBase with
    scenarioFor := fun n =>
      if n == "B" then { okScenario with uploadFails := fun _ => some "upload refused" }
      else okScenario }

/-- Inventory with three servers `A`, `B`, `C`, all complete. -/
def mapC5 : String → Option ServerConfig :=
  fun n =>
    if n == "A" then some ({ cfg1 with name := some "A" })
    else if n == "B" then some ({ cfg1 with name := some "B" })
    else if n == "C" then some ({ cfg1 with name := some "C" })
    else none

/-- A family of fully succeeding remote sides: arbitrary initial files `fs0`,
no upload or transport failure, `nginx -t` exits 0 with stdout `nginxOut`,
the reload command exits 0 with stdout `reloadOut`, both health checks
pass. -/
def c9Scenario (fs0 : RemoteFs) (nginxOut reloadOut : String) : Scenario :=
  { fs := fs0, uploadFails := fun _ => none, netErrOn := fun _ => none,
    nginxTest := (nginxOut, 0), otherCmd := fun _ => (reloadOut, 0),
    httpsOk := true, liveCertOk := true }

end CertAuto

namespace CertAuto

/-- C1.  The claim says a non-success result of the remote configuration
validation aborts the deployment, triggers rollback (restoring the
pre-deployment live pair) and yields success = false.  The code does not:
`RemoteDeployer.validate_nginx_config` catches every exception and returns
`False` (`remote_deployer.py` 123-136), and `deploy_certificate` discards
that return value (`main.py` line 95, whose comment "Now raises exception on
failure" contradicts the implementation).  At a deployment where both uploads
succeed and `nginx -t` fails, the outcome is success = true, the new (never
validated) pair is left live, and the call sequence contains no rollback
`mv` — it is the full success-path sequence. -/
theorem C1_validation_failure_not_rolled_back :
    (deploy_certificate cfg1 "example.com" lcPath lkPath false c1Scenario localFs1).1
      = (true, "Deployment to web-01 successful.")
    ∧ fsGet (deploy_certificate cfg1 "example.com" lcPath lkPath false c1Scenario localFs1).2.fs
        "/etc/nginx/certs/fullchain.pem" = some "NEWCHAIN"
    ∧ fsGet (deploy_certificate cfg1 "example.com" lcPath lkPath false c1Scenario localFs1).2.fs
        "/etc/nginx/certs/privkey.pem" = some "NEWKEY"
    ∧ (deploy_certificate cfg1 "example.com" lcPath lkPath false c1Scenario localFs1).2.trace
      = [Event.execCmd "203.0.113.10" "sudo cp /etc/nginx/certs/fullchain.pem /etc/nginx/certs/fullchain.pem.bak",
         Event.sftpPut "203.0.113.10" lcPath "/etc/nginx/certs/fullchain.pem",
         Event.sftpPut "203.0.113.10" lkPath "/etc/nginx/certs/privkey.pem",
         Event.execCmd "203.0.113.10" "sudo nginx -t",
         Event.execCmd "203.0.113.10" "sudo systemctl reload nginx",
         Event.httpsCheck "example.com",
         Event.liveCertCheck "example.com",
         Event.execCmd "203.0.113.10" "sudo rm /etc/nginx/certs/fullchain.pem.bak /etc/nginx/certs/privkey.pem.bak"] := by
  decide

/-- C2.  The claim says a reload failure or a failure of either health check
aborts, triggers rollback, and yields success = false.  The code does not:
`reload_nginx` catches everything and returns a bool (`remote_deployer.py`
138-147), `check_https_status` and `verify_cert_expiry` likewise
(`health_checker.py`), and `deploy_certificate` discards all three return
values (`main.py` lines 98, 103, 104, each annotated "Now raises exception on
failure").  A failed reload, a failed HTTPS check, and a failed
live-certificate check each still produce a successful outcome, and the
reload-failure run performs no rollback `mv`. -/
theorem C2_reload_and_health_failures_not_rolled_back :
    (deploy_certificate cfg1 "example.com" lcPath lkPath false c2ReloadFailScenario localFs1).1
      = (true, "Deployment to web-01 successful.")
    ∧ (deploy_certificate cfg1 "example.com" lcPath lkPath false c2HttpsFailScenario localFs1).1
      = (true, "Deployment to web-01 successful.")
    ∧ (deploy_certificate cfg1 "example.com" lcPath lkPath false c2CertFailScenario localFs1).1
      = (true, "Deployment to web-01 successful.")
    ∧ (deploy_certificate cfg1 "example.com" lcPath lkPath false c2ReloadFailScenario localFs1).2.trace
      = [Event.execCmd "203.0.113.10" "sudo cp /etc/nginx/certs/fullchain.pem /etc/nginx/certs/fullchain.pem.bak",
         Event.sftpPut "203.0.113.10" lcPath "/etc/nginx/certs/fullchain.pem",
         Event.sftpPut "203.0.113.10" lkPath "/etc/nginx/certs/privkey.pem",
         Event.execCmd "203.0.113.10" "sudo nginx -t",
         Event.execCmd "203.0.113.10" "sudo systemctl reload nginx",
         Event.httpsCheck "example.com",
         Event.liveCertCheck "example.com",
         Event.execCmd "203.0.113.10" "sudo rm /etc/nginx/certs/fullchain.pem.bak /etc/nginx/certs/privkey.pem.bak"] := by
  decide

/-- C3, counterexample.  The claim says a not-due domain is processed with
zero network or remote calls, DNS queries included.  But `process_domain`
calls `get_domain_ip_type` — a `socket.gethostbyname` DNS resolution — at
`main.py` line 152, before the renewal-due check at line 158: processing a
not-due domain in live mode is classified skipped yet performs exactly one
DNS query, so the trace is not empty. -/
theorem C3_skip_performs_dns_query :
    (process_domain envNotDue ⟨some "shop.example.com", ["web-01"]⟩ mapOne res0).1.skipped_renewals
      = ["shop.example.com"]
    ∧ (process_domain envNotDue ⟨some "shop.example.com", ["web-01"]⟩ mapOne res0).2
      = [Event.dnsResolve "shop.example.com"]
    ∧ (process_domain envNotDue ⟨some "shop.example.com", ["web-01"]⟩ mapOne res0).2 ≠ [] := by
  decide

/-- C4, counterexample.  The claim says a rollback failure is surfaced
verbatim in the returned DeploymentOutcome message.  In the code the rollback
failure is only logged (`log.critical`, `main.py` line 126) and the returned
message is built solely from the original deployment error (line 116).  Here
the key upload fails and the first rollback `mv` then raises, so the rollback
itself fails; the outcome message carries only the upload error and does not
contain the rollback error text. -/
theorem C4_rollback_failure_only_original_message :
    (deploy_certificate cfg1 "example.com" lcPath lkPath false c4Scenario localFs1).1
      = (false, "Deployment to web-01 FAILED: Failure during SFTP write of privkey.pem")
    ∧ strContains
        (deploy_certificate cfg1 "example.com" lcPath lkPath false c4Scenario localFs1).1.2
        "SSH connection lost during rollback" = false
    ∧ (deploy_certificate cfg1 "example.com" lcPath lkPath false c4Scenario localFs1).2.trace
      = [Event.execCmd "203.0.113.10" "sudo cp /etc/nginx/certs/fullchain.pem /etc/nginx/certs/fullchain.pem.bak",
         Event.sftpPut "203.0.113.10" lcPath "/etc/nginx/certs/fullchain.pem",
         Event.sftpPut "203.0.113.10" lkPath "/etc/nginx/certs/privkey.pem",
         Event.execCmd "203.0.113.10" "sudo mv /etc/nginx/certs/fullchain.pem.bak /etc/nginx/certs/fullchain.pem"] := by
  decide

/-- Helper: in dry-run mode `execute_command` leaves the deployment state
untouched (no event, no file-system change). -/
theorem execute_command_dry_state (sc : Scenario) (host : String) (st : DState)
    (cmd : String) (chk : Bool) :
    (execute_command true sc host st cmd chk).2 = st := by
  show (if strContains cmd "nginx -t" then ((Except.ok dryNginxOut : Except String String), st)
        else (Except.ok "Success (dry run)", st)).2 = st
  split <;> rfl

/-- Helper: in dry-run mode `upload_file` returns simulated success and leaves
the state untouched. -/
theorem upload_file_dry (sc : Scenario) (lfs : String → String) (host : String)
    (st : DState) (l r : String) :
    upload_file true sc lfs host st l r = (Except.ok (), st) :=
  rfl

/-- Helper: in dry-run mode `validate_nginx_config` leaves the state
untouched. -/
theorem validate_nginx_config_dry_state (sc : Scenario) (host : String) (st : DState) :
    (validate_nginx_config true sc host st).2 = st :=
  rfl

/-- Helper: in dry-run mode `reload_nginx` leaves the state untouched. -/
theorem reload_nginx_dry_state (sc : Scenario) (host : String) (st : DState)
    (rc : String) :
    (reload_nginx true sc host st rc).2 = st := by
  unfold reload_nginx
  rcases hx : execute_command true sc host st rc true with ⟨r, st2⟩
  have h : st2 = st := by
    have h0 := execute_command_dry_state sc host st rc true
    rw [hx] at h0
    exact h0
  cases r <;> simpa using h

/-- Helper: a dry-run deployment ends in the initial state: no trace event and
no remote file-system change at all. -/
theorem deploy_certificate_dry_state (cfg : ServerConfig) (d lc lk : String)
    (sc : Scenario) (lfs : String → String) :
    (deploy_certificate cfg d lc lk true sc lfs).2 = { fs := sc.fs, trace := [] } := by
  unfold deploy_certificate
  split <;>
    simp only [execute_command_dry_state, upload_file_dry, validate_nginx_config_dry_state,
      reload_nginx_dry_state, Bool.not_true, Bool.false_eq_true, if_false] <;>
    split <;> rfl

/-- C8.  With dry-run enabled no remote-mutating call reaches the network
path: `execute_command` short-circuits to a simulated success value before
connecting (recording no event and touching no remote file), `upload_file`
likewise, and a whole dry-run `deploy_certificate` produces an empty event
trace — in particular no health-check event, those steps being skipped
entirely (`main.py` line 102). -/
theorem C8_dry_run_no_network_calls :
    (∀ (sc : Scenario) (host : String) (st : DState) (cmd : String) (chk : Bool),
       execute_command true sc host st cmd chk
         = (if strContains cmd "nginx -t" then (Except.ok dryNginxOut, st)
            else (Except.ok "Success (dry run)", st)))
    ∧ (∀ (sc : Scenario) (lfs : String → String) (host : String) (st : DState) (l r : String),
       upload_file true sc lfs host st l r = (Except.ok (), st))
    ∧ (∀ (cfg : ServerConfig) (d lc lk : String) (sc : Scenario) (lfs : String → String),
       (deploy_certificate cfg d lc lk true sc lfs).2.trace = []) := by
  refine ⟨fun sc host st cmd chk => rfl, fun sc lfs host st l r => rfl, fun cfg d lc lk sc lfs => ?_⟩
  rw [deploy_certificate_dry_state]

/-- C6.  The overall-status classification of the report renderer, under the
run invariants that every failed entry stems from a processed domain and that
no more domains are processed than are configured: SUCCESS exactly when
nothing failed and something was configured or processed, FAILURE when there
are failures and their count equals the configured total, PARTIAL_SUCCESS
when there are failures but fewer than the configured total, and
NO_DOMAINS_CONFIGURED when nothing is configured and nothing processed. -/
theorem C6_overall_status_classification (failed : List FailedEntry)
    (total processed : Nat)
    (h1 : failed.length ≤ processed) (h2 : processed ≤ total) :
    (failed = [] ∧ (total ≠ 0 ∨ processed ≠ 0) →
       overall_status failed total processed = "SUCCESS")
    ∧ (failed ≠ [] ∧ failed.length = total →
       overall_status failed total processed = "FAILURE")
    ∧ (failed ≠ [] ∧ failed.length < total →
       overall_status failed total processed = "PARTIAL_SUCCESS")
    ∧ (total = 0 ∧ processed = 0 →
       overall_status failed total processed = "NO_DOMAINS_CONFIGURED") := by
  refine ⟨?_, ?_, ?_, ?_⟩
  · rintro ⟨hf, hne⟩
    subst hf
    have hcond : (total == 0 && processed == 0) = false := by
      rcases hne with h | h
      · cases total with
        | zero => exact absurd rfl h
        | succ n => rfl
      · cases processed with
        | zero => exact absurd rfl h
        | succ n => cases total <;> rfl
    simp [overall_status, hcond]
  · rintro ⟨hf, hlen⟩
    cases failed with
    | nil => exact absurd rfl hf
    | cons a as =>
      have hb : ((a :: as).length == total) = true := by simpa using hlen
      simp [overall_status, hb]
      simpa using hlen
  · rintro ⟨hf, hlt⟩
    cases failed with
    | nil => exact absurd rfl hf
    | cons a as =>
      have hb : ((a :: as).length == total) = false := by
        simpa using Nat.ne_of_lt hlt
      simp [overall_status, hb]
      simpa using Nat.ne_of_lt hlt
  · rintro ⟨ht, hp⟩
    subst ht; subst hp
    have hf : failed = [] := List.eq_nil_of_length_eq_zero (Nat.le_zero.mp h1)
    subst hf
    simp [overall_status]

/-- Witness for C6 at the spec's own test vector: four configured domains,
one failed, four processed, classifies as PARTIAL_SUCCESS. -/
theorem C6_overall_status_classification_witness :
    overall_status [FailedEntry.missingDomain "N/A" "no domain field"] 4 4
      = "PARTIAL_SUCCESS" :=
  (C6_overall_status_classification [FailedEntry.missingDomain "N/A" "no domain field"] 4 4
      (by decide) (by decide)).2.2.1 ⟨by decide, by decide⟩

/-- Helper: in live mode, a domain whose local certificate is not due for
renewal is classified skipped, and the whole processing emits exactly the one
DNS-resolution event of `get_domain_ip_type` (`main.py` line 152). -/
theorem process_domain_skip (env : Env) (serversMap : String → Option ServerConfig)
    (results : Results) (dom : Option String) (servers : List String) (target : String)
    (hdom : dom = some target)
    (hdry : results.global_dry_run = false)
    (hdue : is_certificate_due_for_renewal
        (env.certExpiry (pathJoin (pathJoin results.cert_base_path target) "fullchain.cer"))
        env.now results.renewal_threshold_days = false) :
    process_domain env ⟨dom, servers⟩ serversMap results =
      ({ results with domains_processed := results.domains_processed + 1,
                      skipped_renewals := results.skipped_renewals ++ [target] },
       [Event.dnsResolve target]) := by
  subst hdom
  unfold process_domain
  simp [hdue, hdry]

/-- C3, amended.  In live mode a not-due domain is classified skipped and
processing performs no transport or issuance call, but it does perform
exactly one DNS resolution of the domain before the renewal-due check. -/
theorem C3_amended_skip_only_dns_query (env : Env) (di : DomainInfo)
    (serversMap : String → Option ServerConfig) (results : Results) (target : String)
    (hdom : di.domain = some target)
    (hdry : results.global_dry_run = false)
    (hdue : is_certificate_due_for_renewal
        (env.certExpiry (pathJoin (pathJoin results.cert_base_path target) "fullchain.cer"))
        env.now results.renewal_threshold_days = false) :
    process_domain env di serversMap results =
      ({ results with domains_processed := results.domains_processed + 1,
                      skipped_renewals := results.skipped_renewals ++ [target] },
       [Event.dnsResolve target]) := by
  obtain ⟨dom, servers⟩ := di
  exact process_domain_skip env serversMap results dom servers target hdom hdry hdue

/-- Witness for the amended C3 at a concrete not-due domain. -/
theorem C3_amended_skip_only_dns_query_witness :
    process_domain envNotDue ⟨some "shop.example.com", ["web-01"]⟩ mapOne res0 =
      ({ res0 with domains_processed := res0.domains_processed + 1,
                   skipped_renewals := res0.skipped_renewals ++ ["shop.example.com"] },
       [Event.dnsResolve "shop.example.com"]) :=
  C3_amended_skip_only_dns_query envNotDue ⟨some "shop.example.com", ["web-01"]⟩ mapOne res0
    "shop.example.com" rfl rfl (by decide)

/-- C7.  When the domain is due (or the run is dry) and issuance fails, the
failure is recorded as the domain's issue_error, the domain is classified
failed, and no deployment happens at all: the processing trace consists of
the DNS resolution and the issuance attempt only — zero transport calls to
any of the domain's servers. -/
theorem C7_issuance_failure_skips_deployment (env : Env) (di : DomainInfo)
    (serversMap : String → Option ServerConfig) (results : Results) (target e : String)
    (hdom : di.domain = some target)
    (hdue : (is_certificate_due_for_renewal
        (env.certExpiry (pathJoin (pathJoin results.cert_base_path target) "fullchain.cer"))
        env.now results.renewal_threshold_days || results.global_dry_run) = true)
    (hiss : env.issue (if env.ipType target == "private" then get_wildcard_domain target
                       else target) = Except.error e) :
    process_domain env di serversMap results =
      ({ results with domains_processed := results.domains_processed + 1,
                      failed_renewals := results.failed_renewals ++
                        [FailedEntry.domainFailure
                          { domain := target, issue_error := some e, deployment_results := [] }] },
       [Event.dnsResolve target,
        Event.issueCert (if env.ipType target == "private" then get_wildcard_domain target
                         else target)]) := by
  obtain ⟨dom, servers⟩ := di
  subst hdom
  have hiss2 : env.issue (if env.ipType target = "private" then get_wildcard_domain target
      else target) = Except.error e := by
    simpa using hiss
  unfold process_domain
  simp [hdue, hiss2]

/-- Witness for C7 at a concrete due domain whose issuance fails. -/
theorem C7_issuance_failure_skips_deployment_witness :
    process_domain envIssueFail ⟨some "shop.example.com", ["web-01"]⟩ mapOne res0 =
      ({ res0 with domains_processed := res0.domains_processed + 1,
                   failed_renewals := res0.failed_renewals ++
                     [FailedEntry.domainFailure
                       { domain := "shop.example.com",
                         issue_error := some "acme.sh certificate issuance failed: DNS-01 challenge failed",
                         deployment_results := [] }] },
       [Event.dnsResolve "shop.example.com", Event.issueCert "shop.example.com"]) :=
  C7_issuance_failure_skips_deployment envIssueFail ⟨some "shop.example.com", ["web-01"]⟩
    mapOne res0 "shop.example.com" "acme.sh certificate issuance failed: DNS-01 challenge failed"
    rfl (by decide) rfl

/-- C10.  A domain whose local certificate file is missing or unreadable has
an undeterminable expiry date, so `is_certificate_due_for_renewal` returns
false (`cert_manager.py` lines 57-59) and, in live mode, `process_domain`
classifies the domain skipped, attempting neither issuance nor deployment
(its only external event is the DNS resolution). -/
theorem C10_missing_local_cert_skipped (env : Env) (di : DomainInfo)
    (serversMap : String → Option ServerConfig) (results : Results) (target : String)
    (hdom : di.domain = some target)
    (hdry : results.global_dry_run = false)
    (hmiss : env.certExpiry (pathJoin (pathJoin results.cert_base_path target) "fullchain.cer")
      = none) :
    is_certificate_due_for_renewal
        (env.certExpiry (pathJoin (pathJoin results.cert_base_path target) "fullchain.cer"))
        env.now results.renewal_threshold_days = false
    ∧ process_domain env di serversMap results =
      ({ results with domains_processed := results.domains_processed + 1,
                      skipped_renewals := results.skipped_renewals ++ [target] },
       [Event.dnsResolve target]) := by
  have hdue : is_certificate_due_for_renewal
      (env.certExpiry (pathJoin (pathJoin results.cert_base_path target) "fullchain.cer"))
      env.now results.renewal_threshold_days = false := by
    rw [hmiss]
    rfl
  refine ⟨hdue, ?_⟩
  obtain ⟨dom, servers⟩ := di
  exact process_domain_skip env serversMap results dom servers target hdom hdry hdue

/-- Witness for C10 at a concrete domain with no readable local
certificate. -/
theorem C10_missing_local_cert_skipped_witness :
    is_certificate_due_for_renewal
        (envNoCert.certExpiry (pathJoin (pathJoin res0.cert_base_path "shop.example.com") "fullchain.cer"))
        envNoCert.now res0.renewal_threshold_days = false
    ∧ process_domain envNoCert ⟨some "shop.example.com", ["web-01"]⟩ mapOne res0 =
      ({ res0 with domains_processed := res0.domains_processed + 1,
                   skipped_renewals := res0.skipped_renewals ++ ["shop.example.com"] },
       [Event.dnsResolve "shop.example.com"]) :=
  C10_missing_local_cert_skipped envNoCert ⟨some "shop.example.com", ["web-01"]⟩ mapOne res0
    "shop.example.com" rfl rfl rfl

/-- C4, amended.  When a deployment step fails (here: the key upload raises
with message `e`), the returned outcome is success = false with message
"Deployment to web-01 FAILED: e" — built solely from the original error —
whatever the remote side does during rollback: the rollback commands'
behaviour (`nerr`, `oc`, the file system `fs0`) is universally quantified, so
even a failing rollback changes nothing in the returned message; the rollback
failure is only logged (`main.py` line 126). -/
theorem C4_amended_outcome_message_only_original_error (fs0 : RemoteFs)
    (nerr : String → Option String) (ng : String × Nat) (oc : String → String × Nat)
    (hb cb : Bool) (e : String) :
    (deploy_certificate cfg1 "example.com" lcPath lkPath false
      { fs := fs0,
        uploadFails := fun p => if p == "/etc/nginx/certs/privkey.pem" then some e else none,
        netErrOn := nerr, nginxTest := ng, otherCmd := oc, httpsOk := hb, liveCertOk := cb }
      localFs1).1
      = (false, "Deployment to web-01 FAILED: " ++ e) :=
  rfl

/-- C5.  Fan-out independence and classification of `process_domain`
(`main.py` lines 190-222): (1) with servers [A, B, C] where A and C deploy
successfully and B fails, the domain result holds exactly three outcomes in
inventory order with successes [true, false, true] and the domain is
classified failed; (2) a server name the inventory does not resolve yields a
synthetic failed outcome and the loop continues with the remaining servers;
(3) with issuance succeeded, the domain is classified successful when every
outcome succeeded and failed (carrying the full outcome list) otherwise. -/
theorem C5_fanout_independence :
    (∀ (env : Env) (serversMap : String → Option ServerConfig) (results : Results)
       (target A B C : String) (cfgA cfgB cfgC : ServerConfig) (mA mB mC : String),
       serversMap A = some cfgA → serversMap B = some cfgB → serversMap C = some cfgC →
       (is_certificate_due_for_renewal
           (env.certExpiry (pathJoin (pathJoin results.cert_base_path target) "fullchain.cer"))
           env.now results.renewal_threshold_days || results.global_dry_run) = true →
       env.issue (if env.ipType target == "private" then get_wildcard_domain target else target)
         = Except.ok () →
       (deploy_certificate cfgA target
           (pathJoin (pathJoin results.cert_base_path target) "fullchain.cer")
           (pathJoin (pathJoin results.cert_base_path target) "domain.key")
           results.global_dry_run (env.scenarioFor A) env.localFs).1 = (true, mA) →
       (deploy_certificate cfgB target
           (pathJoin (pathJoin results.cert_base_path target) "fullchain.cer")
           (pathJoin (pathJoin results.cert_base_path target) "domain.key")
           results.global_dry_run (env.scenarioFor B) env.localFs).1 = (false, mB) →
       (deploy_certificate cfgC target
           (pathJoin (pathJoin results.cert_base_path target) "fullchain.cer")
           (pathJoin (pathJoin results.cert_base_path target) "domain.key")
           results.global_dry_run (env.scenarioFor C) env.localFs).1 = (true, mC) →
       (process_domain env ⟨some target, [A, B, C]⟩ serversMap results).1 =
         { results with
             domains_processed := results.domains_processed + 1,
             failed_renewals := results.failed_renewals ++
               [FailedEntry.domainFailure
                 { domain := target, issue_error := none,
                   deployment_results :=
                     [{ server := A, success := true, message := mA },
                      { server := B, success := false, message := mB },
                      { server := C, success := true, message := mC }] }] })
    ∧ (∀ (env : Env) (serversMap : String → Option ServerConfig)
         (name : String) (rest : List String) (target lc lk : String) (dryRun : Bool),
       serversMap name = none →
       (deployAll env (name :: rest) serversMap target lc lk dryRun).1 =
         { server := name, success := false,
           message := "Server \x27" ++ name ++ "\x27 not found in servers.yaml. Cannot deploy." }
           :: (deployAll env rest serversMap target lc lk dryRun).1)
    ∧ (∀ (env : Env) (serversMap : String → Option ServerConfig) (results : Results)
         (target : String) (servers : List String),
       servers ≠ [] →
       (is_certificate_due_for_renewal
           (env.certExpiry (pathJoin (pathJoin results.cert_base_path target) "fullchain.cer"))
           env.now results.renewal_threshold_days || results.global_dry_run) = true →
       env.issue (if env.ipType target == "private" then get_wildcard_domain target else target)
         = Except.ok () →
       ((deployAll env servers serversMap target
           (pathJoin (pathJoin results.cert_base_path target) "fullchain.cer")
           (pathJoin (pathJoin results.cert_base_path target) "domain.key")
           results.global_dry_run).1.all (fun o => o.success) = true →
         (process_domain env ⟨some target, servers⟩ serversMap results).1 =
           { results with
               domains_processed := results.domains_processed + 1,
               successful_renewals := results.successful_renewals ++ [target] })
       ∧ ((deployAll env servers serversMap target
           (pathJoin (pathJoin results.cert_base_path target) "fullchain.cer")
           (pathJoin (pathJoin results.cert_base_path target) "domain.key")
           results.global_dry_run).1.all (fun o => o.success) = false →
         (process_domain env ⟨some target, servers⟩ serversMap results).1 =
           { results with
               domains_processed := results.domains_processed + 1,
               failed_renewals := results.failed_renewals ++
                 [FailedEntry.domainFailure
                   { domain := target, issue_error := none,
                     deployment_results :=
                       (deployAll env servers serversMap target
                         (pathJoin (pathJoin results.cert_base_path target) "fullchain.cer")
                         (pathJoin (pathJoin results.cert_base_path target) "domain.key")
                         results.global_dry_run).1 }] })) := by
  refine ⟨?_, ?_, ?_⟩
  · intro env serversMap results target A B C cfgA cfgB cfgC mA mB mC
      hA hB hC hdue hiss hdA hdB hdC
    have hiss2 : env.issue (if env.ipType target = "private" then get_wildcard_domain target
        else target) = Except.ok () := by
      simpa using hiss
    unfold process_domain
    simp [hdue, hiss2, deployAll, hA, hB, hC, hdA, hdB, hdC]
  · intro env serversMap name rest target lc lk dryRun hname
    conv_lhs => rw [deployAll]
    simp [hname]
  · intro env serversMap results target servers hne hdue hiss
    have hiss2 : env.issue (if env.ipType target = "private" then get_wildcard_domain target
        else target) = Except.ok () := by
      simpa using hiss
    have hempty : servers.isEmpty = false := by
      cases servers with
      | nil => exact absurd rfl hne
      | cons a as => rfl
    constructor
    · intro hall
      unfold process_domain
      simp [hdue, hiss2, hempty, hall]
    · intro hall
      unfold process_domain
      simp [hdue, hiss2, hempty, hall]

/-- Witness for C5 at concrete worlds: the [A, B, C] fan-out with B's upload
refused, an unresolved server name `X`, and an all-successful single-server
domain classified successful. -/
theorem C5_fanout_independence_witness :
    ((process_domain envC5 ⟨some "shop.example.com", ["A", "B", "C"]⟩ mapC5 res0).1 =
      { res0 with
          domains_processed := res0.domains_processed + 1,
          failed_renewals := res0.failed_renewals ++
            [FailedEntry.domainFailure
              { domain := "shop.example.com", issue_error := none,
                deployment_results :=
                  [{ server := "A", success := true, message := "Deployment to A successful." },
                   { server := "B", success := false, message := "Deployment to B FAILED: upload refused" },
                   { server := "C", success := true, message := "Deployment to C successful." }] }] })
    ∧ ((deployAll envC5 ["X"] mapC5 "shop.example.com"
          "/tmp/certs/shop.example.com/fullchain.cer" "/tmp/certs/shop.example.com/domain.key"
          false).1 =
        [{ server := "X", success := false,
           message := "Server \x27X\x27 not found in servers.yaml. Cannot deploy." }])
    ∧ ((process_domain envBase ⟨some "shop.example.com", ["web-01"]⟩ mapOne res0).1 =
      { res0 with
          domains_processed := res0.domains_processed + 1,
          successful_renewals := res0.successful_renewals ++ ["shop.example.com"] }) :=
  ⟨C5_fanout_independence.1 envC5 mapC5 res0 "shop.example.com" "A" "B" "C"
    ({ cfg1 with name := some "A" }) ({ cfg1 with name := some "B" }) ({ cfg1 with name := some "C" })
    "Deployment to A successful." "Deployment to B FAILED: upload refused"
    "Deployment to C successful."
    rfl rfl rfl (by decide) rfl (by decide) (by decide) (by decide),
   C5_fanout_independence.2.1 envC5 mapC5 "X" [] "shop.example.com"
    "/tmp/certs/shop.example.com/fullchain.cer" "/tmp/certs/shop.example.com/domain.key"
    false rfl,
   (C5_fanout_independence.2.2 envBase mapOne res0 "shop.example.com" ["web-01"]
    (by decide) (by decide) rfl).1 (by decide)⟩

/-- Helper: looking up a path after a write sees the written content at that
path and the untouched file system elsewhere. -/
theorem fsGet_fsSet (fs : RemoteFs) (p v q : String) :
    fsGet (fsSet fs p v) q = if p == q then some v else fsGet fs q := by
  induction fs with
  | nil => simp [fsSet, fsGet]
  | cons hd rest ih =>
    cases h : hd.1 == p with
    | true =>
      have hp : hd.1 = p := eq_of_beq h
      cases hq : p == q with
      | true =>
        have hq2 : p = q := eq_of_beq hq
        subst hq2
        simp [fsSet, fsGet, h, hp]
      | false => simp [fsSet, fsGet, h, hq, hp]
    | false =>
      cases hq : hd.1 == q with
      | true =>
        have h1 : hd.1 = q := eq_of_beq hq
        have hpq : (p == q) = false := by
          subst h1
          simp only [beq_eq_false_iff_ne] at h ⊢
          intro h3
          exact h h3.symm
        simp [fsSet, fsGet, h, hq, hpq]
      | false => simp [fsSet, fsGet, h, hq, ih]

/-- C9.  On a fully successful live deployment (arbitrary pre-deployment
remote files holding a live fullchain and no stale key backup, every step
succeeding), the transport-and-health call sequence is exactly: backup-copy,
upload of the fullchain, upload of the key, validate (`nginx -t`), reload,
HTTPS health check, live-certificate check, delete of the two backup files —
in that order, with no rollback `mv` — and the outcome is success. -/
theorem C9_success_call_sequence (fs0 : RemoteFs) (oldChain nginxOut reloadOut : String)
    (hlive : fsGet fs0 "/etc/nginx/certs/fullchain.pem" = some oldChain)
    (hnobak : fsGet fs0 "/etc/nginx/certs/privkey.pem.bak" = none)
    (hmark : strContains nginxOut "test is successful" = true) :
    (deploy_certificate cfg1 "example.com" lcPath lkPath false
        (c9Scenario fs0 nginxOut reloadOut) localFs1).1
      = (true, "Deployment to web-01 successful.")
    ∧ (deploy_certificate cfg1 "example.com" lcPath lkPath false
        (c9Scenario fs0 nginxOut reloadOut) localFs1).2.trace
      = [Event.execCmd "203.0.113.10" "sudo cp /etc/nginx/certs/fullchain.pem /etc/nginx/certs/fullchain.pem.bak",
         Event.sftpPut "203.0.113.10" lcPath "/etc/nginx/certs/fullchain.pem",
         Event.sftpPut "203.0.113.10" lkPath "/etc/nginx/certs/privkey.pem",
         Event.execCmd "203.0.113.10" "sudo nginx -t",
         Event.execCmd "203.0.113.10" "sudo systemctl reload nginx",
         Event.httpsCheck "example.com",
         Event.liveCertCheck "example.com",
         Event.execCmd "203.0.113.10" "sudo rm /etc/nginx/certs/fullchain.pem.bak /etc/nginx/certs/privkey.pem.bak"] := by
  have hs1 : strSplitChar "sudo cp /etc/nginx/certs/fullchain.pem /etc/nginx/certs/fullchain.pem.bak" ' '
      = ["sudo", "cp", "/etc/nginx/certs/fullchain.pem", "/etc/nginx/certs/fullchain.pem.bak"] := by decide
  have hs2 : strSplitChar "sudo nginx -t" ' ' = ["sudo", "nginx", "-t"] := by decide
  have hs3 : strSplitChar "sudo systemctl reload nginx" ' '
      = ["sudo", "systemctl", "reload", "nginx"] := by decide
  have hs4 : strSplitChar "sudo rm /etc/nginx/certs/fullchain.pem.bak /etc/nginx/certs/privkey.pem.bak" ' '
      = ["sudo", "rm", "/etc/nginx/certs/fullchain.pem.bak", "/etc/nginx/certs/privkey.pem.bak"] := by decide
  unfold deploy_certificate
  simp [cfg1, truthy, optStr, pathJoin, strStartsWith, strEndsWith, charsPrefix,
    execute_command, upload_file, validate_nginx_config, reload_nginx,
    check_https_status, verify_cert_expiry, interpretCmd, c9Scenario,
    hs1, hs2, hs3, hs4, hlive, hnobak, fsGet_fsSet, localFs1]

/-- Witness for C9 at the concrete pre-deployment remote state `baseFs` with
the standard successful `nginx -t` output. -/
theorem C9_success_call_sequence_witness :
    (deploy_certificate cfg1 "example.com" lcPath lkPath false
        (c9Scenario baseFs
          "nginx: the configuration file /etc/nginx/nginx.conf syntax is ok\nnginx: test is successful"
          "") localFs1).1
      = (true, "Deployment to web-01 successful.")
    ∧ (deploy_certificate cfg1 "example.com" lcPath lkPath false
        (c9Scenario baseFs
          "nginx: the configuration file /etc/nginx/nginx.conf syntax is ok\nnginx: test is successful"
          "") localFs1).2.trace
      = [Event.execCmd "203.0.113.10" "sudo cp /etc/nginx/certs/fullchain.pem /etc/nginx/certs/fullchain.pem.bak",
         Event.sftpPut "203.0.113.10" lcPath "/etc/nginx/certs/fullchain.pem",
         Event.sftpPut "203.0.113.10" lkPath "/etc/nginx/certs/privkey.pem",
         Event.execCmd "203.0.113.10" "sudo nginx -t",
         Event.execCmd "203.0.113.10" "sudo systemctl reload nginx",
         Event.httpsCheck "example.com",
         Event.liveCertCheck "example.com",
         Event.execCmd "203.0.113.10" "sudo rm /etc/nginx/certs/fullchain.pem.bak /etc/nginx/certs/privkey.pem.bak"] :=
  C9_success_call_sequence baseFs "OLDCHAIN"
    "nginx: the configuration file /etc/nginx/nginx.conf syntax is ok\nnginx: test is successful"
    "" (by decide) (by decide) (by decide)

end CertAuto
